import Mathlib

/-!
Shallow embedding of the pumpfun-watch scoring core, for checking the
natural-language specification against the code.

Part 1: the Launch-Integrity Scorer of netlify/functions/scored-feed.js
  (`scoreTokenV1`, v1.1.0) and the earlier variant of the same function
  from netlify/functions/scored-feed.js v1.0.0 (`scoreTokenV1Legacy`).
Part 2: the Multi-Module Token Analyzer aggregation layer of
  src/analysis/analyze.js (`collectAndDeduplicateFlags`, `collectReasons`,
  `selectBestReasons`, `determineVerdict`).

Modelling conventions:
- JS strings are Lean `String`s; the string operations the code relies on
  (trim, toLowerCase, startsWith, slice) are re-implemented over the
  underlying character list so that they evaluate by kernel reduction.
- JS numbers are `Int` where the code only ever adds integers (risk
  scores) and `ℚ` where the code uses decimal fractions (module scores,
  confidences, weights). No claim in scope depends on floating-point
  rounding.
- Absent / non-string JS fields are `Option` values; JS falsiness of a
  string (absent or empty) is `optFalsy`.
- Timestamps and the result of `Date.prototype.toISOString` are carried
  as their epoch-millisecond value (rendering to ISO-8601 text is
  presentation only, and `new Date(iso).getTime()` round-trips).
- `Date.now()` is an explicit `now` parameter: the embedding makes the
  scorer's hidden clock input visible.
-/

/-! ## JS-style string helpers (kernel-computable) -/

/-- Whitespace recognised by `String.prototype.trim` (the common subset). -/
def isJsSpace (c : Char) : Bool :=
  c = ' ' || c = '\t' || c = '\n' || c = '\r'

/-- Model of `String.prototype.trim`. -/
def trimS (s : String) : String :=
  String.mk (((s.data.dropWhile isJsSpace).reverse.dropWhile isJsSpace).reverse)

/-- Lower-case a single ASCII character (model of the per-character effect of
`String.prototype.toLowerCase` on the ASCII range used by the code). -/
def lowerChar (c : Char) : Char :=
  if 'A'.toNat ≤ c.toNat ∧ c.toNat ≤ 'Z'.toNat then Char.ofNat (c.toNat + 32) else c

/-- Model of `String.prototype.toLowerCase`. -/
def toLowerS (s : String) : String :=
  String.mk (s.data.map lowerChar)

/-- List version of string prefix testing (pattern, then subject). -/
def listStarts : List Char → List Char → Bool
  | [], _ => true
  | _ :: _, [] => false
  | p :: ps, c :: cs => p = c && listStarts ps cs

/-- Model of `String.prototype.startsWith`. -/
def startsWithS (s pat : String) : Bool :=
  listStarts pat.data s.data

/-- Model of `String.prototype.slice(0, n)` / taking the first `n` characters. -/
def takeS (n : Nat) (s : String) : String :=
  String.mk (s.data.take n)

/-- Helper for substring containment (`String.prototype.includes`). -/
def containsSubAux (pat : List Char) (l : List Char) : Bool :=
  match l with
  | [] => listStarts pat []
  | _ :: tl => listStarts pat l || containsSubAux pat tl

/-- Model of `String.prototype.includes` (subject, then pattern). -/
def containsSub (s pat : String) : Bool :=
  containsSubAux pat.data s.data

/-- JS falsiness of an optional string: absent (`null`/non-string) or `""`. -/
def optFalsy : Option String → Bool
  | none => true
  | some s => s = ""

/-- JS truthiness of an optional string. -/
def optTruthy (o : Option String) : Bool :=
  !(optFalsy o)

/-! ## Shared validation (scored-feed.js) -/

/-- One character of the base58 alphabet `[1-9A-HJ-NP-Za-km-z]`
(digits 1-9 and letters without 0, O, I, l). -/
def isBase58Char (c : Char) : Bool :=
  (('1'.toNat ≤ c.toNat && c.toNat ≤ '9'.toNat) ||
   ('A'.toNat ≤ c.toNat && c.toNat ≤ 'Z'.toNat) ||
   ('a'.toNat ≤ c.toNat && c.toNat ≤ 'z'.toNat)) &&
  !(c = 'O') && !(c = 'I') && !(c = 'l')

/-- `isValidPubkey` from scored-feed.js: trimmed length 32..44 and all
characters base58. (The `typeof s !== "string"` guard is handled by the
callers of the embedding, which only pass strings here.) -/
def isValidPubkey (s : String) : Bool :=
  let v := trimS s
  32 ≤ v.data.length && v.data.length ≤ 44 && v.data.all isBase58Char

/-- Split a string at the first `':'`, returning the parts before and after. -/
def splitAtColon : List Char → Option (List Char × List Char)
  | [] => none
  | c :: cs =>
    if c = ':' then some ([], cs)
    else (splitAtColon cs).map (fun p => (c :: p.1, p.2))

/-- `safeHttpUrl` from scored-feed.js: `new URL(String(u))` succeeding with
protocol `https:` or `http:`, else `null`. URL-constructor success for the
http/https schemes is modelled as "scheme prefix before a `':'`,
case-insensitively `http` or `https`, with a non-empty remainder"; the
canonicalisation performed by `url.toString()` is not modelled (the scorer
only forwards the accepted string). `null`/non-string inputs stringify to
text without a valid scheme and throw, hence `none`. -/
def safeHttpUrl (u : Option String) : Option String :=
  match u with
  | none => none
  | some s =>
    match splitAtColon s.data with
    | none => none
    | some (sch, rest) =>
      let schS := String.mk (sch.map lowerChar)
      if (schS = "https" ∨ schS = "http") ∧ rest ≠ [] then some s else none

/-- `toISO` from scored-feed.js: `new Date(v).toISOString()`, carried as the
epoch-millisecond value; `none` when the Date is invalid (outside the
±8.64e15 ms ECMAScript time range). -/
def toISO (ms : Int) : Option Int :=
  if ms.natAbs ≤ 8640000000000000 then some ms else none

/-- `clamp` from scored-feed.js: `Math.max(a, Math.min(b, n))`. -/
def clamp (n a b : Int) : Int :=
  max a (min b n)

/-! ## Launch-Integrity Scorer v1.1.0 (scored-feed.js `scoreTokenV1`) -/

/-- The four verdict labels of the Launch-Integrity Scorer. -/
inductive Verdict where
  | cleanIsh
  | caution
  | highRisk
  | unknown
deriving DecidableEq, Repr

/-- Pre-fetched on-chain mint record (`OnchainMintInfo` in scored-feed.js). -/
structure OnchainMintInfo where
  «exists» : Bool
  mintAuthority : Option String
  freezeAuthority : Option String
  decimals : Option Int
  isInitialized : Option Bool
deriving DecidableEq, Repr

/-- A raw launch item as read from the webhook store: every field may be
absent (or of the wrong JS type, which the code treats the same way). -/
structure RawItem where
  mint : Option String
  name : Option String
  symbol : Option String
  uri : Option String
  creatorHex : Option String
  isMayhem : Option Bool
  signature : Option String
  timestamp : Option Int
deriving DecidableEq, Repr

/-- The debug/transparency `signals` map assembled by `scoreTokenV1`. -/
structure TokenSignals where
  mint : Option String
  name : Option String
  symbol : Option String
  uri : Option String
  creatorHex : Option String
  isMayhem : Option Bool
  signature : Option String
  timestamp : Option Int
  onchain : Option OnchainMintInfo
deriving DecidableEq, Repr

/-- `TokenScored` as returned by scored-feed.js `scoreTokenV1`. -/
structure TokenScored where
  mint : Option String
  firstSeenUTC : Option Int
  source : String
  pumpUrl : Option String
  name : Option String
  symbol : Option String
  uri : Option String
  creatorHex : Option String
  signature : Option String
  isMayhem : Option Bool
  score : Int
  verdict : Verdict
  reasons : List String
  signals : TokenSignals
deriving DecidableEq, Repr

/-- `firstSeenUTC` derivation in `scoreTokenV1`:
`tsSec ? toISO(tsSec * 1000) : null` (note `0` is falsy in JS). -/
def deriveFirstSeen : Option Int → Option Int
  | none => none
  | some t => if t = 0 then none else toISO (t * 1000)

/-- Whether the event timestamp lies more than 60 s in the future of `now`
(the `seen > now + 60_000` check of `scoreTokenV1`). -/
def tsFuture (firstSeenUTC : Option Int) (now : Int) : Bool :=
  match firstSeenUTC with
  | none => false
  | some seen => seen > now + 60000

/-- `creatorHex` validity: present and matching `/^[0-9a-fA-F]{64}$/`
(an absent or empty value fails, exactly as the JS falsiness check does). -/
def hexOk : Option String → Bool
  | none => false
  | some s =>
    s.data.length = 64 &&
    s.data.all (fun c =>
      ('0'.toNat ≤ c.toNat && c.toNat ≤ '9'.toNat) ||
      ('a'.toNat ≤ c.toNat && c.toNat ≤ 'f'.toNat) ||
      ('A'.toNat ≤ c.toNat && c.toNat ≤ 'F'.toNat))

/-- The integrity/completeness block of `scoreTokenV1` (scored-feed.js
lines 307-341): the sequence of additive checks applied once the mint is
present, threaded over a (score, reasons) accumulator. -/
def integrityChecks (mint : String) (name symbol uri creatorHex : Option String)
    (signature : Option String) (isMayhem : Option Bool)
    (sr : Int × List String) : Int × List String :=
  let sr := if ¬ isValidPubkey mint then
      (sr.1 + 55, sr.2 ++ ["Mint format looks invalid (base58/length check failed)"])
    else sr
  let sr := if optFalsy name then
      (sr.1 + 10, sr.2 ++ ["Missing token name in create_v2 payload"])
    else sr
  let sr := if optFalsy symbol then
      (sr.1 + 8, sr.2 ++ ["Missing token symbol in create_v2 payload"])
    else sr
  let sr := if uri = none then
      (sr.1 + 12, sr.2 ++ ["Missing/invalid metadata URI"])
    else sr
  let sr := if ¬ hexOk creatorHex then
      (sr.1 + 12, sr.2 ++ ["Creator bytes missing/invalid (hex length check failed)"])
    else sr
  let sr := if optFalsy signature then
      (sr.1 + 6, sr.2 ++ ["Missing transaction signature"])
    else sr
  let sr := if isMayhem = some true then
      (sr.1 + 10, sr.2 ++ ["Flag: create_v2 indicates mayhem mode (treat as higher risk)"])
    else sr
  sr

/-- The timestamp-sanity step of `scoreTokenV1`: +8 when `firstSeenUTC` is
missing/invalid, +6 when it is more than a minute in the future of `now`. -/
def tsStep (firstSeenUTC : Option Int) (now : Int)
    (sr : Int × List String) : Int × List String :=
  match firstSeenUTC with
  | none => (sr.1 + 8, sr.2 ++ ["Missing/invalid timestamp"])
  | some seen =>
    if seen > now + 60000 then
      (sr.1 + 6, sr.2 ++ ["Timestamp is in the future (clock skew or malformed event)"])
    else sr

/-- The on-chain cross-check block of `scoreTokenV1`. -/
def onchainStep (onchain : Option OnchainMintInfo)
    (sr : Int × List String) : Int × List String :=
  match onchain with
  | none =>
    (sr.1 + 8, sr.2 ++ ["On-chain mint checks unavailable (RPC error/limit) — treat as unknown"])
  | some oc =>
    if oc.«exists» = false then
      (sr.1 + 45, sr.2 ++ ["On-chain: mint account not found (could be malformed or not finalized)"])
    else
      let sr := if optTruthy oc.mintAuthority then
          (sr.1 + 12, sr.2 ++ ["On-chain: mint authority is present (supply can potentially be increased)"])
        else
          (sr.1, sr.2 ++ ["On-chain: mint authority appears unset (cannot mint more via authority)"])
      let sr := if optTruthy oc.freezeAuthority then
          (sr.1 + 10, sr.2 ++ ["On-chain: freeze authority is present (accounts can be frozen)"])
        else
          (sr.1, sr.2 ++ ["On-chain: freeze authority appears unset (cannot freeze via authority)"])
      match oc.decimals with
      | some d => (sr.1, sr.2 ++ [s!"On-chain: decimals = {d}"])
      | none => sr

/-- Whether on-chain existence could not be confirmed:
`(!onchain || !onchain.exists)`. -/
def onchainUnconfirmed : Option OnchainMintInfo → Bool
  | none => true
  | some oc => !oc.«exists»

/-- `scoreTokenV1` from scored-feed.js (v1.1.0). `now` is `Date.now()`,
made explicit. -/
def scoreTokenV1 (item : RawItem) (onchain : Option OnchainMintInfo)
    (now : Int) : TokenScored :=
  let mint : String := (item.mint.map trimS).getD ""
  let name : Option String := item.name.map trimS
  let symbol : Option String := item.symbol.map trimS
  let uri : Option String := safeHttpUrl item.uri
  let creatorHex : Option String := item.creatorHex.map trimS
  let isMayhem : Option Bool := item.isMayhem
  let signature : Option String := item.signature
  let tsSec : Option Int := item.timestamp
  let firstSeenUTC : Option Int := deriveFirstSeen tsSec
  let signals : TokenSignals :=
    { mint := if mint = "" then none else some mint
      name := name, symbol := symbol, uri := uri, creatorHex := creatorHex
      isMayhem := isMayhem, signature := signature, timestamp := tsSec
      onchain := none }
  if mint = "" then
    { mint := none, firstSeenUTC := firstSeenUTC, source := "webhook:create_v2"
      pumpUrl := none, name := name, symbol := symbol, uri := uri
      creatorHex := creatorHex, signature := signature, isMayhem := isMayhem
      score := 100, verdict := .unknown, reasons := ["Missing mint"]
      signals := signals }
  else
    let sr : Int × List String := (20, [])
    let sr := integrityChecks mint name symbol uri creatorHex signature isMayhem sr
    let sr := tsStep firstSeenUTC now sr
    let sr := onchainStep onchain sr
    let score := clamp sr.1 0 100
    let verdict : Verdict :=
      if score ≤ 25 then .cleanIsh else if score ≤ 60 then .caution else .highRisk
    let verdict := if ¬ isValidPubkey mint ∧ onchainUnconfirmed onchain then .unknown else verdict
    let reasons :=
      if sr.2 = [] then ["Only basic checks applied (no additional signals available)"] else sr.2
    { mint := some mint, firstSeenUTC := firstSeenUTC, source := "webhook:create_v2"
      pumpUrl := some ("https://pump.fun/" ++ mint), name := name, symbol := symbol
      uri := uri, creatorHex := creatorHex, signature := signature, isMayhem := isMayhem
      score := score, verdict := verdict, reasons := reasons
      signals := { signals with onchain := onchain } }

/-! ## Launch-Integrity Scorer v1.0.0 (the earlier scored-feed.js variant) -/

/-- `isValidBase58Mint` from scored-feed.js v1.0.0 (same check as
`isValidPubkey`, kept under its own name as in the source). -/
def isValidBase58Mint (s : String) : Bool :=
  let mint := trimS s
  32 ≤ mint.data.length && mint.data.length ≤ 44 && mint.data.all isBase58Char

/-- Model of `new URL(u).hostname` for URLs accepted by `safeHttpUrl`:
the text after the scheme separator, with leading slashes dropped, up to
the first `/`, `:`, `?` or `#`. -/
def hostnameOf (u : String) : String :=
  match splitAtColon u.data with
  | none => ""
  | some (_, rest) =>
    String.mk ((rest.dropWhile (· = '/')).takeWhile
      (fun c => !(c = '/' || c = ':' || c = '?' || c = '#')))

/-- Raw feed item consumed by scored-feed.js v1.0.0. `firstSeenUTC` carries
the result of `toISODateLike` on the raw input, as epoch milliseconds
(`none` when the input is absent or does not parse as a date). -/
structure RawLegacy where
  mint : Option String
  pumpUrl : Option String
  firstSeenUTC : Option Int
  source : Option String
deriving DecidableEq, Repr

/-- The `signals` map of scored-feed.js v1.0.0. `onchainPlaceholder`
records whether the all-null on-chain placeholder object was attached
(it is not attached on the missing-mint short-circuit path). -/
structure LegacySignals where
  mint : Option String
  pumpUrl : Option String
  firstSeenUTC : Option Int
  source : Option String
  onchainPlaceholder : Bool
deriving DecidableEq, Repr

/-- The scored token returned by scored-feed.js v1.0.0. -/
structure TokenScoredLegacy where
  mint : Option String
  pumpUrl : Option String
  firstSeenUTC : Option Int
  source : String
  score : Int
  verdict : Verdict
  reasons : List String
  signals : LegacySignals
deriving DecidableEq, Repr

/-- `scoreTokenV1` from scored-feed.js v1.0.0 (named `scoreTokenV1Legacy`
here because the repository holds both variants of the function). -/
def scoreTokenV1Legacy (raw : RawLegacy) : TokenScoredLegacy :=
  let mint : String := (raw.mint.map trimS).getD ""
  let pumpUrl : Option String := safeHttpUrl raw.pumpUrl
  let firstSeenUTC : Option Int := raw.firstSeenUTC
  let source : String := (raw.source.map trimS).getD ""
  let signals : LegacySignals :=
    { mint := if mint = "" then none else some mint
      pumpUrl := pumpUrl, firstSeenUTC := firstSeenUTC
      source := if source = "" then none else some source
      onchainPlaceholder := false }
  if mint = "" then
    { mint := none, pumpUrl := pumpUrl, firstSeenUTC := firstSeenUTC
      source := if source = "" then "unknown" else source
      score := 100, verdict := .unknown, reasons := ["Missing mint"]
      signals := signals }
  else
    let sr : Int × List String := (35, [])
    let sr := if ¬ isValidBase58Mint mint then
        (sr.1 + 45, sr.2 ++ ["Mint format looks invalid (base58/length check failed)"])
      else sr
    let sr := match pumpUrl with
      | none => (sr.1 + 20, sr.2 ++ ["Missing or invalid Pump URL"])
      | some u =>
        if containsSub (toLowerS (hostnameOf u)) "pump.fun" = false then
          (sr.1 + 10, sr.2 ++ ["Pump URL domain is unusual (not pump.fun)"])
        else sr
    let sr := if firstSeenUTC = none then
        (sr.1 + 10, sr.2 ++ ["Missing/invalid firstSeen timestamp"])
      else sr
    let sr := if source = "" then (sr.1 + 5, sr.2 ++ ["Missing source label"]) else sr
    let sr := (sr.1, sr.2 ++ ["On-chain checks not yet wired (authority/holders/LP signals = unknown)"])
    let signals := { signals with onchainPlaceholder := true }
    let score := if sr.1 < 0 then 0 else if sr.1 > 100 then 100 else sr.1
    let verdict : Verdict :=
      if score ≤ 25 then .cleanIsh else if score ≤ 60 then .caution else .highRisk
    let verdict := if ¬ isValidBase58Mint mint ∧ pumpUrl = none then .unknown else verdict
    if sr.2.length = 1 ∧ startsWithS (sr.2.headD "") "On-chain checks" then
      { mint := some mint, pumpUrl := pumpUrl, firstSeenUTC := firstSeenUTC
        source := if source = "" then "unknown" else source
        score := max score 40, verdict := .caution
        reasons := "Only basic integrity checks available in v1" :: sr.2
        signals := signals }
    else
      { mint := some mint, pumpUrl := pumpUrl, firstSeenUTC := firstSeenUTC
        source := if source = "" then "unknown" else source
        score := score, verdict := verdict, reasons := sr.2
        signals := signals }

/-! ## Creator-reuse category (modelled from the spec) -/

/-- Generic lookup in an association list keyed by strings. -/
def lookupS {β : Type} : List (String × β) → String → Option β
  | [], _ => none
  | (k, v) :: rest, key => if k = key then some v else lookupS rest key

/-- Modelled from the spec: the creator-reuse category of the
Launch-Integrity Scorer (spec section 4.1, item 3) does not appear in
either `scoreTokenV1` variant present in the repository sources — no
creator-frequency map is built or consulted anywhere under src/. The
tier is modelled from the spec's words: "look up creator's frequency in
the batch map. Tiered additive penalty: frequency>10 → +30; >5 → +20;
>2 → +10; else 0." -/
def creatorReusePenalty (frequency : Nat) : Nat :=
  if frequency > 10 then 30
  else if frequency > 5 then 20
  else if frequency > 2 then 10
  else 0

/-- Modelled from the spec: the points the creator-reuse category adds for
a creator scored against a batch CreatorFrequencyMap (creators absent
from the map have frequency 0). -/
def creatorReuseCategory (freqMap : List (String × Nat)) (creator : String) : Nat :=
  creatorReusePenalty ((lookupS freqMap creator).getD 0)

/-! ## Multi-Module Token Analyzer aggregation (src/analysis/analyze.js) -/

/-- Risk-flag severity. -/
inductive Severity where
  | warning
  | critical
deriving DecidableEq, Repr

/-- Risk-flag verification status. -/
inductive FlagStatus where
  | verified
  | unverified
  | stale
  | ambiguous
deriving DecidableEq, Repr

/-- A normalized v2 `RiskFlag` (analyze.js typedef). -/
structure RiskFlag where
  key : String
  label : String
  severity : Severity
  confidence : ℚ
  status : FlagStatus
  evidence : String
  checkSource : Option String
deriving DecidableEq, Repr

/-- A flag as emitted by a module, before normalization: either the legacy
bare-identifier form, or an object already carrying the v2 fields (`label`,
`confidence`, `status`, `evidence` and `checkSource` may each be absent;
an object must have a truthy `key` and `severity` to count as v2, which
the constructor's non-optional fields reflect). -/
inductive RawFlag where
  | legacy (key : String)
  | v2 (key : String) (label : Option String) (severity : Severity)
       (confidence : Option ℚ) (status : Option FlagStatus)
       (evidence : Option String) (checkSource : Option String)
deriving DecidableEq, Repr

/-- `getCriticalFlags` from analyze.js. -/
def getCriticalFlags : List String :=
  ["lp_unlocked", "rug_risk_liquidity", "circular_trading", "wash_trading",
   "whale_dominated", "dev_dumping", "mass_exit", "bot_pattern"]

/-- `formatFlagLabel` from analyze.js: the fixed label table, with
`key.replace(/_/g, ' ')` as the default. -/
def formatFlagLabel (key : String) : String :=
  match lookupS
    [("lp_unlocked", "LP unlocked (verified)"),
     ("lp_unverified", "LP lock not verified"),
     ("lp_mixed", "Multiple pools — lock mixed"),
     ("lp_stale", "LP lock data outdated"),
     ("lp_unknown", "LP lock status unknown"),
     ("whale_dominated", "Whale dominated"),
     ("high_concentration", "High holder concentration"),
     ("circular_trading", "Circular trading detected"),
     ("wash_trading", "Wash trading suspected"),
     ("bot_pattern", "Bot pattern detected"),
     ("wallet_recycling", "Wallet recycling detected"),
     ("shallow_liquidity", "Shallow liquidity"),
     ("rug_risk_liquidity", "Critical liquidity risk"),
     ("post_pump", "Already pumped"),
     ("recent_pump", "Recent pump"),
     ("distribution_starting", "Distribution starting"),
     ("dev_dumping", "Dev selling detected"),
     ("selling_pressure", "Selling pressure"),
     ("flipper_heavy", "High flipper activity"),
     ("low_volume", "Low volume"),
     ("low_holders", "Few holders"),
     ("identical_amounts", "Identical tx amounts"),
     ("uniform_tx_sizes", "Uniform tx sizes"),
     ("phase_transition", "Phase transition risk"),
     ("possibly_dead", "Possibly abandoned"),
     ("stale_activity", "Stale activity"),
     ("dormant", "Dormant token"),
     ("concentrated_holdings", "Concentrated holdings"),
     ("late_stage_pump", "Late stage pump"),
     ("mass_exit", "Mass exit happening"),
     ("distribution_phase", "Distribution phase"),
     ("whale_dependent", "Whale dependent"),
     ("data_unavailable", "Data unavailable"),
     ("unverified_activity", "Activity unverified")] key with
  | some label => label
  | none => String.mk (key.data.map (fun c => if c = '_' then ' ' else c))

/-- JS `x || 0.5` on an optional confidence (`0` is falsy). -/
def orHalf : Option ℚ → ℚ
  | none => 0.5
  | some q => if q = 0 then 0.5 else q

/-- JS `s || d` on an optional string (empty string is falsy). -/
def orStr (o : Option String) (d : String) : String :=
  match o with
  | none => d
  | some s => if s = "" then d else s

/-- JS `s || null` on an optional string. -/
def orNull : Option String → Option String
  | none => none
  | some s => if s = "" then none else some s

/-- `normalizeFlag` from analyze.js. -/
def normalizeFlag : RawFlag → RiskFlag
  | .v2 key label severity confidence status evidence checkSource =>
    { key := key, label := orStr label (formatFlagLabel key), severity := severity
      confidence := orHalf confidence, status := status.getD .unverified
      evidence := evidence.getD "", checkSource := orNull checkSource }
  | .legacy key =>
    { key := key, label := formatFlagLabel key
      severity := if key ∈ getCriticalFlags then .critical else .warning
      confidence := 0.5, status := .unverified, evidence := "", checkSource := none }

/-- `lpFlagPriority` from `collectAndDeduplicateFlags`. -/
def lpFlagPriority : List String :=
  ["lp_unlocked", "lp_mixed", "lp_stale", "lp_unverified", "lp_unknown"]

/-- `Array.prototype.indexOf` on a list of strings. -/
def lpIndex (key : String) : List String → Option Nat
  | [] => none
  | x :: xs => if x = key then some 0 else (lpIndex key xs).map (· + 1)

/-- A `ModuleResult` as consumed by the aggregation layer of analyze.js. -/
structure ModuleResult where
  score : ℚ
  confidence : ℚ
  reasons : List String
  flags : List RawFlag
deriving DecidableEq, Repr

/-- The six module results, in the object-literal (and hence
`Object.entries`/`Object.values` iteration) order of `analyzeToken`. -/
structure ModuleResults where
  worthMyTime : ModuleResult
  fakeMove : ModuleResult
  tooLate : ModuleResult
  deadVsSleeping : ModuleResult
  holderPsychology : ModuleResult
  rugNarrative : ModuleResult
deriving DecidableEq, Repr

/-- `Object.entries(moduleResults)` in insertion order. -/
def moduleEntries (mr : ModuleResults) : List (String × ModuleResult) :=
  [("worthMyTime", mr.worthMyTime), ("fakeMove", mr.fakeMove),
   ("tooLate", mr.tooLate), ("deadVsSleeping", mr.deadVsSleeping),
   ("holderPsychology", mr.holderPsychology), ("rugNarrative", mr.rugNarrative)]

/-- `MODULE_WEIGHTS[name] || 0.1` from analyze.js. -/
def moduleWeight : String → ℚ
  | "worthMyTime" => 0.15
  | "fakeMove" => 0.25
  | "tooLate" => 0.20
  | "deadVsSleeping" => 0.10
  | "holderPsychology" => 0.15
  | "rugNarrative" => 0.15
  | _ => 0.1

/-- `Map.prototype.set` on an insertion-ordered association list: replaces
in place when the key is present, appends otherwise. -/
def mapSet (m : List (String × RiskFlag)) (k : String) (v : RiskFlag) :
    List (String × RiskFlag) :=
  match m with
  | [] => [(k, v)]
  | (k2, v2) :: rest => if k2 = k then (k, v) :: rest else (k2, v2) :: mapSet rest k v

/-- The mutable state of the flag-collection loop in
`collectAndDeduplicateFlags`: the keyed flag map, plus the best LP flag
seen so far and its priority (`bestLpPriority` starts at
`lpFlagPriority.length`, standing in for `Infinity`, which is strictly
above every real index). -/
structure DedupState where
  flagMap : List (String × RiskFlag)
  bestLpFlag : Option RiskFlag
  bestLpPriority : Nat
deriving DecidableEq, Repr

/-- One iteration of the flag loop in `collectAndDeduplicateFlags`. -/
def dedupStep (st : DedupState) (flag : RawFlag) : DedupState :=
  let nf := normalizeFlag flag
  if startsWithS nf.key "lp_" then
    match lpIndex nf.key lpFlagPriority with
    | some p =>
      if p < st.bestLpPriority then
        { st with bestLpPriority := p, bestLpFlag := some nf }
      else st
    | none => st
  else
    match lookupS st.flagMap nf.key with
    | none => { st with flagMap := mapSet st.flagMap nf.key nf }
    | some existing =>
      if (nf.severity = .critical ∧ existing.severity = .warning) ∨
          nf.confidence > existing.confidence then
        { st with flagMap := mapSet st.flagMap nf.key nf }
      else st

/-- The final sort comparator of `collectAndDeduplicateFlags`, expressed as
"`a` may stay before `b`" (comparator value ≤ 0): critical first, then
descending confidence. -/
def flagLE (a b : RiskFlag) : Bool :=
  if a.severity = .critical ∧ ¬ b.severity = .critical then true
  else if b.severity = .critical ∧ ¬ a.severity = .critical then false
  else b.confidence - a.confidence ≤ 0

/-- Stable insertion of one element into an already-sorted list. -/
def insSorted {α : Type} (le : α → α → Bool) (x : α) : List α → List α
  | [] => [x]
  | y :: ys => if le y x then y :: insSorted le x ys else x :: y :: ys

/-- Stable sort by a "may stay before" relation (models
`Array.prototype.sort`, which is stable). -/
def stableSort {α : Type} (le : α → α → Bool) (l : List α) : List α :=
  l.foldl (fun acc x => insSorted le x acc) []

/-- `collectAndDeduplicateFlags` from analyze.js. -/
def collectAndDeduplicateFlags (mr : ModuleResults) : List RiskFlag :=
  let st := (moduleEntries mr).foldl
    (fun st p => p.2.flags.foldl dedupStep st)
    { flagMap := [], bestLpFlag := none, bestLpPriority := lpFlagPriority.length }
  let m := match st.bestLpFlag with
    | some f => mapSet st.flagMap f.key f
    | none => st.flagMap
  stableSort flagLE (m.map (·.2))

/-- A pooled reason tagged with its originating module
(`collectReasons` entries). -/
structure TaggedReason where
  text : String
  module : String
  score : ℚ
  confidence : ℚ
deriving DecidableEq, Repr

/-- `collectReasons` from analyze.js. -/
def collectReasons (mr : ModuleResults) : List TaggedReason :=
  (moduleEntries mr).foldl
    (fun acc p => acc ++ p.2.reasons.map
      (fun t => { text := t, module := p.1, score := p.2.score, confidence := p.2.confidence }))
    []

/-- The four analyzer verdicts. -/
inductive VerdictA where
  | ENTER
  | WAIT
  | IGNORE
  | EXIT
deriving DecidableEq, Repr

/-- The three confidence levels. -/
inductive ConfLevel where
  | LOW
  | MEDIUM
  | HIGH
deriving DecidableEq, Repr

/-- The verdict-aware reason comparator of `selectBestReasons`, expressed as
"`a` may stay before `b`" (comparator value ≤ 0). -/
def reasonLE (verdict : VerdictA) (a b : TaggedReason) : Bool :=
  if verdict = .EXIT ∧ (a.module = "rugNarrative" ∨ a.module = "fakeMove") then true
  else if verdict = .EXIT ∧ (b.module = "rugNarrative" ∨ b.module = "fakeMove") then false
  else if verdict = .ENTER ∧ a.score ≥ 60 ∧ b.score < 60 then true
  else if verdict = .ENTER ∧ b.score ≥ 60 ∧ a.score < 60 then false
  else b.confidence * moduleWeight b.module - a.confidence * moduleWeight a.module ≤ 0

/-- The dedup-and-take loop of `selectBestReasons`: walk the sorted reasons,
skip any whose lowercase 30-character prefix was already seen, and stop
as soon as five have been selected. -/
def dedupTakeAux : List TaggedReason → List String → List String → List String
  | [], _, sel => sel
  | r :: rs, seen, sel =>
    let norm := takeS 30 (toLowerS r.text)
    if seen.contains norm then dedupTakeAux rs seen sel
    else
      let sel2 := sel ++ [r.text]
      if sel2.length ≥ 5 then sel2 else dedupTakeAux rs (seen ++ [norm]) sel2

/-- The generic filler reason appended by `selectBestReasons` when fewer
than three reasons survive, keyed by verdict. -/
def fillerReason : VerdictA → String
  | .ENTER => "Structural signals look acceptable"
  | .IGNORE => "Not enough evidence to warrant attention"
  | .WAIT => "Timing or signal clarity needs improvement"
  | .EXIT => "Risk signals outweigh potential upside"

/-- `selectBestReasons` from analyze.js. The source's comparator is not a
consistent total order (for EXIT two rug-module reasons each sort before
the other), so `Array.prototype.sort`'s result is implementation-defined
there; the embedding fixes a stable insertion sort. Every property proved
about reason COUNTS is independent of the order chosen. -/
def selectBestReasons (allReasons : List TaggedReason) (verdict : VerdictA) :
    List String :=
  let filtered := allReasons.filter (fun r => decide (r.confidence ≥ 0.3))
  let sorted := stableSort (reasonLE verdict) filtered
  let selected := dedupTakeAux sorted [] []
  let selected := if selected.length < 3 then selected ++ [fillerReason verdict] else selected
  selected.take 5

/-- The `moduleResults.x?.score || 50` pattern of `determineVerdict`
(a module score of `0` is falsy and falls back to 50). -/
def effScore (s : ℚ) : ℚ :=
  if s = 0 then 50 else s

/-- The priority-2 EXIT condition of `determineVerdict`, as the code
evaluates it: rug-narrative score (after the `|| 50` fallback) below 35. -/
def exitRugCond (mr : ModuleResults) : Prop :=
  effScore mr.rugNarrative.score < 35

/-- The priority-3 EXIT condition of `determineVerdict`: fake-move score
(after the `|| 50` fallback) below 30 together with a wash-pattern flag. -/
def exitFakeCond (mr : ModuleResults) (flags : List RiskFlag) : Prop :=
  effScore mr.fakeMove.score < 30 ∧
  flags.any (fun f => decide (f.key = "circular_trading" ∨ f.key = "wash_trading" ∨
    f.key = "bot_pattern"))

instance (mr : ModuleResults) : Decidable (exitRugCond mr) := by
  unfold exitRugCond; infer_instance

instance (mr : ModuleResults) (flags : List RiskFlag) :
    Decidable (exitFakeCond mr flags) := by
  unfold exitFakeCond; infer_instance

/-- JS `timingNote || d` (the notes assigned by the code are never empty,
but the embedding keeps the falsiness check). -/
def orNote (tn : Option String) (d : String) : Option String :=
  match tn with
  | none => some d
  | some s => if s = "" then some d else some s

/-- The ordered decision tree of `determineVerdict` from analyze.js
(everything before the two trailing confidence/note adjustments), with
first-match-wins evaluation. Data quality is the string `"full"` or
`"partial"` exactly as in the source. Returns (verdict, confidence,
timingNote). -/
def determineVerdictBase (weightedScore avgConfidence : ℚ) (mr : ModuleResults)
    (flags : List RiskFlag) (dataQuality : String) (isVeryNew : Bool) :
    VerdictA × ConfLevel × Option String :=
  let criticalFlags := flags.filter
    (fun f => decide (f.severity = .critical ∧ f.status = .verified))
  let hasCriticalVerifiedRisk := criticalFlags.length > 0
  let fakeMoveScore := effScore mr.fakeMove.score
  let tooLateScore := effScore mr.tooLate.score
  let rugScore := effScore mr.rugNarrative.score
  if hasCriticalVerifiedRisk then
      (.EXIT, if avgConfidence ≥ 0.7 then .HIGH else .MEDIUM,
       some "Critical verified risk detected — avoid this token.")
    else if exitRugCond mr then
      (.EXIT, if avgConfidence ≥ 0.6 then .HIGH else .MEDIUM,
       some "Rug risk signals too high — exit or avoid.")
    else if exitFakeCond mr flags then
      (.EXIT, .MEDIUM, some "Fake volume patterns detected — likely manipulation.")
    else if weightedScore ≥ 68 ∧ fakeMoveScore ≥ 55 ∧ tooLateScore ≥ 50 ∧
        rugScore ≥ 55 ∧ ¬ flags.any (fun f => decide (f.severity = .critical)) ∧
        dataQuality = "full" then
      let conf : ConfLevel :=
        if avgConfidence ≥ 0.7 then .HIGH else if avgConfidence ≥ 0.5 then .MEDIUM else .LOW
      if isVeryNew then
        (.ENTER, .LOW, some "Very new token — limited history to verify. Size accordingly.")
      else if tooLateScore < 60 then
        (.ENTER, conf, some "Entry window may be narrowing — watch for distribution signs.")
      else (.ENTER, conf, none)
    else if weightedScore ≥ 50 ∧ rugScore ≥ 45 ∧
        (tooLateScore < 55 ∨ fakeMoveScore ≥ 45) then
      let conf : ConfLevel := if avgConfidence ≥ 0.6 then .MEDIUM else .LOW
      let note : Option String :=
        if tooLateScore < 50 then
          some "Already moved significantly — wait for pullback or confirmation."
        else if fakeMoveScore < 55 then
          some "Some volume patterns unclear — monitor for organic confirmation."
        else if isVeryNew then
          some "Too early to assess reliably — check back in a few hours."
        else some "Mixed signals — wait for clearer setup."
      (.WAIT, conf, note)
    else
      let conf : ConfLevel := if avgConfidence ≥ 0.6 then .MEDIUM else .LOW
      let note : Option String :=
        if weightedScore < 40 then
          some "Insufficient quality signals — not worth your attention."
        else if flags.length > 4 then
          some "Too many risk flags to justify attention."
        else none
      (.IGNORE, conf, note)

/-- `determineVerdict` from analyze.js: the decision tree above followed by
the data-quality confidence downgrade and the pump.fun very-new ENTER
adjustment. Returns (verdict, confidence, timingNote). -/
def determineVerdict (weightedScore avgConfidence : ℚ) (mr : ModuleResults)
    (flags : List RiskFlag) (dataQuality : String) (isPumpFun isVeryNew : Bool) :
    VerdictA × ConfLevel × Option String :=
  let base := determineVerdictBase weightedScore avgConfidence mr flags dataQuality isVeryNew
  let verdict := base.1
  let confidence :=
    if dataQuality = "partial" ∧ base.2.1 = .HIGH then ConfLevel.MEDIUM else base.2.1
  let confidence :=
    if isPumpFun ∧ isVeryNew ∧ verdict = .ENTER ∧ confidence = .HIGH then
      ConfLevel.MEDIUM
    else confidence
  let timingNote :=
    if isPumpFun ∧ isVeryNew ∧ verdict = .ENTER then
      orNote base.2.2 "New pump.fun token — high volatility expected."
    else base.2.2
  (verdict, confidence, timingNote)

/-! ## Concrete example inputs (used by witness/counterexample theorems) -/

/-- A module result with the given score and no reasons or flags. -/
def exModule (s : ℚ) : ModuleResult :=
  { score := s, confidence := 0.5, reasons := [], flags := [] }

/-- Module results satisfying both the priority-2 EXIT rug condition and
every non-rug ENTER sub-condition. -/
def mrC3ex : ModuleResults :=
  { worthMyTime := exModule 70, fakeMove := exModule 60, tooLate := exModule 60
    deadVsSleeping := exModule 60, holderPsychology := exModule 60
    rugNarrative := exModule 30 }

/-- Module results where the rug-narrative and fake-move modules both
return a score of exactly 0. -/
def mrC9ex : ModuleResults :=
  { worthMyTime := exModule 60, fakeMove := exModule 0, tooLate := exModule 60
    deadVsSleeping := exModule 60, holderPsychology := exModule 60
    rugNarrative := exModule 0 }

/-- Module results where one module emits a critical-severity flag for the
key `wash_trading` (confidence 0.5) and a later module emits a
warning-severity flag for the same key with higher confidence (0.9). -/
def mrC6ex : ModuleResults :=
  { worthMyTime :=
      { score := 50, confidence := 0.5, reasons := []
        flags := [RawFlag.v2 "wash_trading" none Severity.critical (some 0.5)
          (some FlagStatus.verified) none none] }
    fakeMove :=
      { score := 50, confidence := 0.5, reasons := []
        flags := [RawFlag.v2 "wash_trading" none Severity.warning (some 0.9)
          (some FlagStatus.unverified) none none] }
    tooLate := exModule 50, deadVsSleeping := exModule 50
    holderPsychology := exModule 50, rugNarrative := exModule 50 }

/-- Module results where no module produces any reason. -/
def mrC7ex : ModuleResults :=
  { worthMyTime := exModule 50, fakeMove := exModule 50, tooLate := exModule 50
    deadVsSleeping := exModule 50, holderPsychology := exModule 50
    rugNarrative := exModule 50 }

/-- Module results where one module emits the legacy LP flag
`lp_unlocked`. -/
def mrC10ex : ModuleResults :=
  { worthMyTime :=
      { score := 50, confidence := 0.5, reasons := []
        flags := [RawFlag.legacy "lp_unlocked"] }
    fakeMove := exModule 50, tooLate := exModule 50, deadVsSleeping := exModule 50
    holderPsychology := exModule 50, rugNarrative := exModule 50 }

/-! ## Shared lemmas -/

theorem verdict_cases (v : Verdict) :
    v = Verdict.cleanIsh ∨ v = Verdict.caution ∨ v = Verdict.highRisk ∨ v = Verdict.unknown := by
  cases v <;> simp

theorem clamp_nonneg (n : Int) : 0 ≤ clamp n 0 100 := by
  unfold clamp; omega

theorem clamp_le_100 (n : Int) : clamp n 0 100 ≤ 100 := by
  unfold clamp; omega

theorem reasons_default_ne_nil (l : List String) :
    (if l = [] then ["Only basic checks applied (no additional signals available)"] else l) ≠ [] := by
  split <;> simp_all

/-! ## Claims about the Launch-Integrity Scorer -/

/-- C1: for every launch-event input whose mint field is missing or empty,
`scoreTokenV1` (in both repository variants of the Launch-Integrity
Scorer) returns score 100 and verdict `unknown` with the single terminal
reason, regardless of every other field — the missing-mint branch
short-circuits before any further category check can add points or
reasons. -/
theorem C1_missing_mint_short_circuit (item : RawItem) (onchain : Option OnchainMintInfo)
    (now : Int) (raw : RawLegacy)
    (h : item.mint = none ∨ item.mint = some "")
    (hL : raw.mint = none ∨ raw.mint = some "") :
    (scoreTokenV1 item onchain now).score = 100 ∧
    (scoreTokenV1 item onchain now).verdict = Verdict.unknown ∧
    (scoreTokenV1 item onchain now).reasons = ["Missing mint"] ∧
    (scoreTokenV1Legacy raw).score = 100 ∧
    (scoreTokenV1Legacy raw).verdict = Verdict.unknown ∧
    (scoreTokenV1Legacy raw).reasons = ["Missing mint"] := by
  have htrim : trimS "" = "" := rfl
  have hm : (item.mint.map trimS).getD "" = "" := by
    rcases h with h | h <;> simp [h, htrim]
  have hmL : (raw.mint.map trimS).getD "" = "" := by
    rcases hL with h | h <;> simp [h, htrim]
  refine ⟨?_, ?_, ?_, ?_, ?_, ?_⟩ <;>
    simp [scoreTokenV1, scoreTokenV1Legacy, hm, hmL]

/-- Witness for C1 at a concrete input: every other field populated with
junk, mint absent (resp. empty in the legacy variant). -/
theorem C1_missing_mint_short_circuit_witness :
    (scoreTokenV1
      { mint := none, name := some "EvilToken", symbol := some "EVL"
        uri := some "https://evil.example/x", creatorHex := some "zz"
        isMayhem := some true, signature := some "sig123", timestamp := some 1700000000 }
      (some { «exists» := true, mintAuthority := some "auth", freezeAuthority := none
              decimals := some 6, isInitialized := some true })
      1700000500000).score = 100 ∧
    (scoreTokenV1
      { mint := none, name := some "EvilToken", symbol := some "EVL"
        uri := some "https://evil.example/x", creatorHex := some "zz"
        isMayhem := some true, signature := some "sig123", timestamp := some 1700000000 }
      (some { «exists» := true, mintAuthority := some "auth", freezeAuthority := none
              decimals := some 6, isInitialized := some true })
      1700000500000).verdict = Verdict.unknown ∧
    (scoreTokenV1Legacy
      { mint := some "", pumpUrl := some "https://pump.fun/x"
        firstSeenUTC := some 1700000000000, source := some "pumpfun-scrape" }).score = 100 ∧
    (scoreTokenV1Legacy
      { mint := some "", pumpUrl := some "https://pump.fun/x"
        firstSeenUTC := some 1700000000000, source := some "pumpfun-scrape" }).verdict
      = Verdict.unknown := by
  have h := C1_missing_mint_short_circuit
    { mint := none, name := some "EvilToken", symbol := some "EVL"
      uri := some "https://evil.example/x", creatorHex := some "zz"
      isMayhem := some true, signature := some "sig123", timestamp := some 1700000000 }
    (some { «exists» := true, mintAuthority := some "auth", freezeAuthority := none
            decimals := some 6, isInitialized := some true })
    1700000500000
    { mint := some "", pumpUrl := some "https://pump.fun/x"
      firstSeenUTC := some 1700000000000, source := some "pumpfun-scrape" }
    (Or.inl rfl) (Or.inr rfl)
  exact ⟨h.1, h.2.1, h.2.2.2.1, h.2.2.2.2.1⟩

/-- C2: every `TokenScored` the Launch-Integrity Scorer returns — for every
input, malformed or not — has a score in [0,100], a non-empty reasons
list, and one of the four verdict labels. -/
theorem C2_scored_token_postconditions (item : RawItem)
    (onchain : Option OnchainMintInfo) (now : Int) :
    0 ≤ (scoreTokenV1 item onchain now).score ∧
    (scoreTokenV1 item onchain now).score ≤ 100 ∧
    (scoreTokenV1 item onchain now).reasons ≠ [] ∧
    ((scoreTokenV1 item onchain now).verdict = Verdict.cleanIsh ∨
     (scoreTokenV1 item onchain now).verdict = Verdict.caution ∨
     (scoreTokenV1 item onchain now).verdict = Verdict.highRisk ∨
     (scoreTokenV1 item onchain now).verdict = Verdict.unknown) := by
  by_cases hm : (item.mint.map trimS).getD "" = ""
  · refine ⟨?_, ?_, ?_, ?_⟩ <;> simp [scoreTokenV1, hm]
  · refine ⟨?_, ?_, ?_, ?_⟩ <;> simp only [scoreTokenV1, if_neg hm]
    · exact clamp_nonneg _
    · exact clamp_le_100 _
    · exact reasons_default_ne_nil _
    · exact verdict_cases _

set_option maxHeartbeats 1600000 in
/-- C4 counterexample: the integrity point values of the claim do not match
the code. On an otherwise fully-valid event, removing the symbol raises
the score from 20 to 28 — the missing-symbol check adds +8, not the
claimed +10 (likewise the code adds +6 for a missing signature and +12
for a missing/invalid URI, and has no separate non-HTTPS penalty). -/
theorem C4_counterexample_symbol_points :
    (scoreTokenV1
      { mint := some "AAAAAAAAAAAAAAAAAAAAAAAAAAAAAAAA", name := some "Token"
        symbol := none, uri := some "https://a.example/m"
        creatorHex := some "aaaaaaaaaaaaaaaaaaaaaaaaaaaaaaaaaaaaaaaaaaaaaaaaaaaaaaaaaaaaaaaa"
        isMayhem := some false, signature := some "sig1", timestamp := some 1700000000 }
      (some { «exists» := true, mintAuthority := none, freezeAuthority := none
              decimals := none, isInitialized := none })
      1700000000000).score = 28 ∧
    (scoreTokenV1
      { mint := some "AAAAAAAAAAAAAAAAAAAAAAAAAAAAAAAA", name := some "Token"
        symbol := some "TKN", uri := some "https://a.example/m"
        creatorHex := some "aaaaaaaaaaaaaaaaaaaaaaaaaaaaaaaaaaaaaaaaaaaaaaaaaaaaaaaaaaaaaaaa"
        isMayhem := some false, signature := some "sig1", timestamp := some 1700000000 }
      (some { «exists» := true, mintAuthority := none, freezeAuthority := none
              decimals := none, isInitialized := none })
      1700000000000).score = 20 ∧
    (28 : Int) ≠ 20 + 10 := by
  refine ⟨by decide, by decide, by decide⟩

set_option maxHeartbeats 3200000 in
/-- C4 amended: in the integrity/completeness block of `scoreTokenV1`
(mint present), the risk points added are exactly +55 for an invalid
base58/length mint, +10 for a missing name, +8 for a missing symbol,
+12 for a missing or unparseable/non-http(s) metadata URI, +12 for
missing/invalid creator bytes, +6 for a missing signature and +10 for
the mayhem flag; an http (non-HTTPS) URI that parses is accepted by
`safeHttpUrl` and contributes nothing. -/
theorem C4_amended_integrity_points (mint : String)
    (name symbol uri creatorHex signature : Option String) (isMayhem : Option Bool)
    (sr : Int × List String) :
    (integrityChecks mint name symbol uri creatorHex signature isMayhem sr).1 =
      sr.1 + (if ¬ isValidPubkey mint then 55 else 0) + (if optFalsy name then 10 else 0) +
      (if optFalsy symbol then 8 else 0) + (if uri = none then 12 else 0) +
      (if ¬ hexOk creatorHex then 12 else 0) + (if optFalsy signature then 6 else 0) +
      (if isMayhem = some true then 10 else 0) ∧
    safeHttpUrl (some "http://a.example/m") = some "http://a.example/m" := by
  constructor
  · simp only [integrityChecks]
    split_ifs <;> simp
  · decide

/-- Congruence for the timestamp-sanity step: two clock values that agree
on the future-timestamp check produce the same step. -/
theorem tsStep_congr (fs : Option Int) (n n2 : Int)
    (h : tsFuture fs n = tsFuture fs n2) : tsStep fs n = tsStep fs n2 := by
  funext sr
  cases fs with
  | none => rfl
  | some seen =>
    have h2 : (seen > n + 60000) ↔ (seen > n2 + 60000) := by
      simpa [tsFuture] using h
    simp only [tsStep]
    by_cases hc : seen > n + 60000
    · rw [if_pos hc, if_pos (h2.mp hc)]
    · rw [if_neg hc, if_neg (fun hh => hc (h2.mpr hh))]

set_option maxHeartbeats 1600000 in
/-- C8 counterexample: `scoreTokenV1` is NOT independent of the current
clock. The same event with the same pre-fetched on-chain record scores
26 when `Date.now()` is at epoch 0 (its timestamp is then "in the
future", +6) and 20 when `Date.now()` is past the timestamp. -/
theorem C8_counterexample_clock_dependence :
    (scoreTokenV1
      { mint := some "AAAAAAAAAAAAAAAAAAAAAAAAAAAAAAAA", name := some "Token"
        symbol := some "TKN", uri := some "https://a.example/m"
        creatorHex := some "aaaaaaaaaaaaaaaaaaaaaaaaaaaaaaaaaaaaaaaaaaaaaaaaaaaaaaaaaaaaaaaa"
        isMayhem := some false, signature := some "sig1", timestamp := some 1000000 }
      (some { «exists» := true, mintAuthority := none, freezeAuthority := none
              decimals := none, isInitialized := none })
      0).score ≠
    (scoreTokenV1
      { mint := some "AAAAAAAAAAAAAAAAAAAAAAAAAAAAAAAA", name := some "Token"
        symbol := some "TKN", uri := some "https://a.example/m"
        creatorHex := some "aaaaaaaaaaaaaaaaaaaaaaaaaaaaaaaaaaaaaaaaaaaaaaaaaaaaaaaaaaaaaaaa"
        isMayhem := some false, signature := some "sig1", timestamp := some 1000000 }
      (some { «exists» := true, mintAuthority := none, freezeAuthority := none
              decimals := none, isInitialized := none })
      2000000000000).score := by
  decide

/-- C8 amended: `scoreTokenV1` is a deterministic pure function of the
event, the pre-fetched on-chain record AND the current clock; its only
use of the clock is the future-timestamp check, so any two invocations
whose clock values agree on that check (in particular, any two at the
same instant) yield identical `TokenScored` values. -/
theorem C8_amended_deterministic_given_clock (item : RawItem)
    (onchain : Option OnchainMintInfo) (n n2 : Int)
    (h : tsFuture (deriveFirstSeen item.timestamp) n =
         tsFuture (deriveFirstSeen item.timestamp) n2) :
    scoreTokenV1 item onchain n = scoreTokenV1 item onchain n2 := by
  simp only [scoreTokenV1]
  rw [tsStep_congr (deriveFirstSeen item.timestamp) n n2 h]

set_option maxHeartbeats 1600000 in
/-- Witness for the amended C8 at a concrete event and two different
(non-future) clock values. -/
theorem C8_amended_deterministic_given_clock_witness :
    scoreTokenV1
      { mint := some "AAAAAAAAAAAAAAAAAAAAAAAAAAAAAAAA", name := some "Token"
        symbol := some "TKN", uri := some "https://a.example/m"
        creatorHex := some "aaaaaaaaaaaaaaaaaaaaaaaaaaaaaaaaaaaaaaaaaaaaaaaaaaaaaaaaaaaaaaaa"
        isMayhem := some false, signature := some "sig1", timestamp := some 1000000 }
      (some { «exists» := true, mintAuthority := none, freezeAuthority := none
              decimals := none, isInitialized := none })
      1000000000000 =
    scoreTokenV1
      { mint := some "AAAAAAAAAAAAAAAAAAAAAAAAAAAAAAAA", name := some "Token"
        symbol := some "TKN", uri := some "https://a.example/m"
        creatorHex := some "aaaaaaaaaaaaaaaaaaaaaaaaaaaaaaaaaaaaaaaaaaaaaaaaaaaaaaaaaaaaaaaa"
        isMayhem := some false, signature := some "sig1", timestamp := some 1000000 }
      (some { «exists» := true, mintAuthority := none, freezeAuthority := none
              decimals := none, isInitialized := none })
      2000000000000 :=
  C8_amended_deterministic_given_clock _ _ _ _ (by decide)

theorem determineVerdict_fst (ws ac : ℚ) (mr : ModuleResults) (flags : List RiskFlag)
    (dq : String) (p n : Bool) :
    (determineVerdict ws ac mr flags dq p n).1 =
    (determineVerdictBase ws ac mr flags dq n).1 := rfl

theorem filter_critical_verified_nil (flags : List RiskFlag)
    (h : flags.any (fun f => decide (f.severity = Severity.critical)) = false) :
    flags.filter
      (fun f => decide (f.severity = Severity.critical ∧ f.status = FlagStatus.verified)) = [] := by
  induction flags with
  | nil => rfl
  | cons a l ih =>
    simp only [List.any_cons, Bool.or_eq_false_iff] at h
    have ha : ¬ a.severity = Severity.critical := by simpa using h.1
    have hl := ih h.2
    have hpa : ¬ (decide (a.severity = Severity.critical ∧ a.status = FlagStatus.verified) = true) := by
      simp [ha]
    simp only [List.filter_cons, if_neg hpa]
    exact hl

/-- C3: the analyzer's verdict conditions are evaluated first-match-wins:
whenever the priority-2 EXIT condition holds (rug-narrative module score,
after the `|| 50` fallback, below 35) together with all the non-rug
sub-conditions of the priority-4 ENTER branch (weighted score ≥ 68,
fake-move ≥ 55, too-late ≥ 50, no critical-severity flag, full data
quality), `determineVerdict` resolves to EXIT, never ENTER. -/
theorem C3_exit_priority_over_enter (weightedScore avgConfidence : ℚ)
    (mr : ModuleResults) (flags : List RiskFlag) (dataQuality : String)
    (isPumpFun isVeryNew : Bool)
    (hrug : effScore mr.rugNarrative.score < 35)
    (_hws : weightedScore ≥ 68)
    (_hfm : effScore mr.fakeMove.score ≥ 55)
    (_htl : effScore mr.tooLate.score ≥ 50)
    (hnc : flags.any (fun f => decide (f.severity = Severity.critical)) = false)
    (_hdq : dataQuality = "full") :
    (determineVerdict weightedScore avgConfidence mr flags dataQuality
      isPumpFun isVeryNew).1 = VerdictA.EXIT := by
  have hfil := filter_critical_verified_nil flags hnc
  have hrug2 : exitRugCond mr := hrug
  rw [determineVerdict_fst]
  simp only [determineVerdictBase, hfil, List.length_nil]
  simp [hrug2]

/-- Witness for C3: concrete module results with rug score 30 and every
non-rug ENTER sub-condition satisfied resolve to EXIT. -/
theorem C3_exit_priority_over_enter_witness :
    (determineVerdict 70 0.5 mrC3ex [] "full" false false).1 = VerdictA.EXIT :=
  C3_exit_priority_over_enter 70 0.5 mrC3ex [] "full" false false
    (by norm_num [mrC3ex, exModule, effScore])
    (by norm_num)
    (by norm_num [mrC3ex, exModule, effScore])
    (by norm_num [mrC3ex, exModule, effScore])
    rfl rfl

/-- C9: in `determineVerdict` a module score of exactly 0 is treated as the
default 50 (the `|| 50` fallback treats 0 as absent): with a rug-narrative
score of 0 the priority-2 EXIT condition does not hold, with a fake-move
score of 0 the priority-3 EXIT condition does not hold, and when both
modules return 0 (and no critical verified flag triggers priority 1) the
verdict is never EXIT. -/
theorem C9_zero_module_score_treated_as_50 (mr : ModuleResults)
    (flags : List RiskFlag) (ws ac : ℚ) (dq : String) (p n : Bool) :
    (mr.rugNarrative.score = 0 → ¬ exitRugCond mr) ∧
    (mr.fakeMove.score = 0 → ¬ exitFakeCond mr flags) ∧
    (mr.rugNarrative.score = 0 → mr.fakeMove.score = 0 →
      flags.filter
        (fun f => decide (f.severity = Severity.critical ∧ f.status = FlagStatus.verified)) = [] →
      (determineVerdict ws ac mr flags dq p n).1 ≠ VerdictA.EXIT) := by
  refine ⟨?_, ?_, ?_⟩
  · intro h
    norm_num [exitRugCond, effScore, h]
  · intro h
    norm_num [exitFakeCond, effScore, h]
  · intro h1 h2 hfil
    have hr : ¬ exitRugCond mr := by norm_num [exitRugCond, effScore, h1]
    have hf : ¬ exitFakeCond mr flags := by norm_num [exitFakeCond, effScore, h2]
    rw [determineVerdict_fst]
    simp only [determineVerdictBase, hfil, List.length_nil]
    rw [if_neg (by simp), if_neg hr, if_neg hf]
    split_ifs <;> simp

/-- Witness for C9: with concrete module results whose rug-narrative and
fake-move scores are exactly 0 (and no flags), neither EXIT condition
holds and the verdict is not EXIT. -/
theorem C9_zero_module_score_treated_as_50_witness :
    ¬ exitRugCond mrC9ex ∧ ¬ exitFakeCond mrC9ex [] ∧
    (determineVerdict 70 0.5 mrC9ex [] "full" false false).1 ≠ VerdictA.EXIT := by
  have h := C9_zero_module_score_treated_as_50 mrC9ex [] 70 0.5 "full" false false
  exact ⟨h.1 rfl, h.2.1 rfl, h.2.2 rfl rfl rfl⟩

theorem selectBestReasons_length_bounds (allReasons : List TaggedReason)
    (verdict : VerdictA) :
    1 ≤ (selectBestReasons allReasons verdict).length ∧
    (selectBestReasons allReasons verdict).length ≤ 5 := by
  simp only [selectBestReasons]
  set sel := dedupTakeAux
    (stableSort (reasonLE verdict)
      (allReasons.filter (fun r => decide (r.confidence ≥ 0.3)))) [] [] with hsel
  by_cases h : sel.length < 3
  · simp only [if_pos h, List.length_take, List.length_append, List.length_singleton]
    omega
  · simp only [if_neg h, List.length_take]
    omega

/-- C7 counterexample: when no module produces any reason (a legal
combination of module results), the whole pipeline — reason pooling, the
confidence filter, dedup and the single generic filler — yields exactly
one reason, not the claimed minimum of three. -/
theorem C7_counterexample_single_filler_reason :
    (selectBestReasons (collectReasons mrC7ex)
      (determineVerdict 50 0.5 mrC7ex [] "full" false false).1).length < 3 := by
  have hcr : collectReasons mrC7ex = [] := by
    simp [collectReasons, moduleEntries, mrC7ex, exModule]
  rw [hcr]
  simp [selectBestReasons, stableSort, dedupTakeAux]

/-- C7 amended: for every combination of module results and every verdict,
the selected reasons list contains between 1 and 5 entries inclusive
(when fewer than three survive filtering only ONE generic filler is
appended, so the count can drop to 1 or 2; it can never be 0 or
exceed 5). -/
theorem C7_amended_reason_count_bounds (mr : ModuleResults) (verdict : VerdictA) :
    1 ≤ (selectBestReasons (collectReasons mr) verdict).length ∧
    (selectBestReasons (collectReasons mr) verdict).length ≤ 5 :=
  selectBestReasons_length_bounds (collectReasons mr) verdict

/-- C5 (modelled from the spec; no creator-frequency code exists under
src/): the creator-reuse category adds the tiered penalty of the
creator's batch frequency — +30 above 10, +20 above 5, +10 above 2,
else 0 — so frequency 11 contributes +30, 6 contributes +20,
3 contributes +10 and 2 contributes +0. -/
theorem C5_creator_reuse_tiers (freqMap : List (String × Nat)) (creator : String) :
    creatorReuseCategory freqMap creator =
      creatorReusePenalty ((lookupS freqMap creator).getD 0) ∧
    (∀ frequency : Nat,
      (10 < frequency → creatorReusePenalty frequency = 30) ∧
      (5 < frequency → frequency ≤ 10 → creatorReusePenalty frequency = 20) ∧
      (2 < frequency → frequency ≤ 5 → creatorReusePenalty frequency = 10) ∧
      (frequency ≤ 2 → creatorReusePenalty frequency = 0)) := by
  refine ⟨rfl, ?_⟩
  intro fr
  refine ⟨?_, ?_, ?_, ?_⟩
  · intro h
    simp [creatorReusePenalty, h]
  · intro h h2
    have h3 : ¬ fr > 10 := by omega
    simp [creatorReusePenalty, h3, h]
  · intro h h2
    have h3 : ¬ fr > 10 := by omega
    have h4 : ¬ fr > 5 := by omega
    simp [creatorReusePenalty, h3, h4, h]
  · intro h
    have h3 : ¬ fr > 10 := by omega
    have h4 : ¬ fr > 5 := by omega
    have h5 : ¬ fr > 2 := by omega
    simp [creatorReusePenalty, h3, h4, h5]

/-- Witness for C5 at the concrete frequencies named by the claim. -/
theorem C5_creator_reuse_tiers_witness :
    creatorReusePenalty 11 = 30 ∧ creatorReusePenalty 6 = 20 ∧
    creatorReusePenalty 3 = 10 ∧ creatorReusePenalty 2 = 0 := by
  have h := C5_creator_reuse_tiers [] ""
  exact ⟨(h.2 11).1 (by decide), (h.2 6).2.1 (by decide) (by decide),
    (h.2 3).2.2.1 (by decide) (by decide), (h.2 2).2.2.2 (by decide)⟩

/-- C6 (code bug): during flag aggregation a warning-severity duplicate CAN
displace a critical-severity flag for the same key, because the
replacement condition is `(critical over warning) OR higher confidence`
rather than using confidence only on severity ties. At the failing input
`mrC6ex` — a verified critical `wash_trading` flag (confidence 0.5)
followed by a warning flag for the same key with confidence 0.9 — the
aggregated output keeps only the warning flag, contradicting both the
claim and the code's own "keep highest severity version" comment. -/
theorem C6_warning_displaces_critical_flag :
    (collectAndDeduplicateFlags mrC6ex).map (fun f => (f.key, f.severity, f.confidence)) =
      [("wash_trading", Severity.warning, 0.9)] := by
  simp +decide [collectAndDeduplicateFlags, moduleEntries, mrC6ex, exModule, dedupStep,
    normalizeFlag, orHalf, orStr, formatFlagLabel, lookupS, mapSet, lpFlagPriority,
    startsWithS, listStarts, stableSort, insSorted, flagLE, lpIndex]
  norm_num [insSorted, orNull]

theorem lpIndex_mem (key : String) (l : List String) (n : Nat)
    (h : lpIndex key l = some n) : key ∈ l := by
  induction l generalizing n with
  | nil => simp [lpIndex] at h
  | cons x xs ih =>
    simp only [lpIndex] at h
    by_cases hx : x = key
    · simp [hx]
    · rw [if_neg hx] at h
      cases hidx : lpIndex key xs with
      | none => rw [hidx] at h; simp at h
      | some m => exact List.mem_cons_of_mem _ (ih m hidx)

theorem mapSet_mem (m : List (String × RiskFlag)) (k : String) (v : RiskFlag)
    (p : String × RiskFlag) (h : p ∈ mapSet m k v) : p = (k, v) ∨ p ∈ m := by
  induction m with
  | nil =>
    simp only [mapSet] at h
    simp at h
    exact Or.inl h
  | cons q rest ih =>
    obtain ⟨k2, v2⟩ := q
    simp only [mapSet] at h
    by_cases hk : k2 = k
    · rw [if_pos hk] at h
      rcases List.mem_cons.mp h with h2 | h2
      · exact Or.inl h2
      · exact Or.inr (List.mem_cons_of_mem _ h2)
    · rw [if_neg hk] at h
      rcases List.mem_cons.mp h with h2 | h2
      · exact Or.inr (by rw [h2]; exact List.mem_cons_self _ _)
      · rcases ih h2 with h3 | h3
        · exact Or.inl h3
        · exact Or.inr (List.mem_cons_of_mem _ h3)

theorem dedupStep_preserves (st : DedupState) (fl : RawFlag)
    (h1 : ∀ p ∈ st.flagMap, startsWithS p.2.key "lp_" = false)
    (h2 : ∀ f, st.bestLpFlag = some f → f.key ∈ lpFlagPriority) :
    (∀ p ∈ (dedupStep st fl).flagMap, startsWithS p.2.key "lp_" = false) ∧
    (∀ f, (dedupStep st fl).bestLpFlag = some f → f.key ∈ lpFlagPriority) := by
  simp only [dedupStep]
  split
  · rename_i hlp
    split
    · rename_i p hidx
      split
      · refine ⟨h1, ?_⟩
        intro f hf
        simp only [Option.some.injEq] at hf
        exact hf ▸ lpIndex_mem _ _ _ hidx
      · exact ⟨h1, h2⟩
    · exact ⟨h1, h2⟩
  · rename_i hlp
    split
    · refine ⟨?_, h2⟩
      intro q hq
      rcases mapSet_mem _ _ _ _ hq with h3 | h3
      · rw [h3]
        simpa using hlp
      · exact h1 q h3
    · split
      · refine ⟨?_, h2⟩
        intro q hq
        rcases mapSet_mem _ _ _ _ hq with h3 | h3
        · rw [h3]
          simpa using hlp
        · exact h1 q h3
      · exact ⟨h1, h2⟩

theorem foldl_dedupStep_preserves (fls : List RawFlag) (st : DedupState)
    (h1 : ∀ p ∈ st.flagMap, startsWithS p.2.key "lp_" = false)
    (h2 : ∀ f, st.bestLpFlag = some f → f.key ∈ lpFlagPriority) :
    (∀ p ∈ (fls.foldl dedupStep st).flagMap, startsWithS p.2.key "lp_" = false) ∧
    (∀ f, (fls.foldl dedupStep st).bestLpFlag = some f → f.key ∈ lpFlagPriority) := by
  induction fls generalizing st with
  | nil => exact ⟨h1, h2⟩
  | cons a l ih =>
    have h := dedupStep_preserves st a h1 h2
    exact ih (dedupStep st a) h.1 h.2

theorem foldl_modules_preserves (entries : List (String × ModuleResult))
    (st : DedupState)
    (h1 : ∀ p ∈ st.flagMap, startsWithS p.2.key "lp_" = false)
    (h2 : ∀ f, st.bestLpFlag = some f → f.key ∈ lpFlagPriority) :
    (∀ p ∈ (entries.foldl (fun st p => p.2.flags.foldl dedupStep st) st).flagMap,
      startsWithS p.2.key "lp_" = false) ∧
    (∀ f, (entries.foldl (fun st p => p.2.flags.foldl dedupStep st) st).bestLpFlag = some f →
      f.key ∈ lpFlagPriority) := by
  induction entries generalizing st with
  | nil => exact ⟨h1, h2⟩
  | cons e l ih =>
    have h := foldl_dedupStep_preserves e.2.flags st h1 h2
    exact ih (e.2.flags.foldl dedupStep st) h.1 h.2

theorem mem_insSorted {α : Type} (le : α → α → Bool) (x a : α) (l : List α)
    (h : a ∈ insSorted le x l) : a = x ∨ a ∈ l := by
  induction l with
  | nil => simpa [insSorted] using h
  | cons y ys ih =>
    simp only [insSorted] at h
    by_cases hc : le y x = true
    · rw [if_pos hc] at h
      rcases List.mem_cons.mp h with h2 | h2
      · exact Or.inr (by rw [h2]; exact List.mem_cons_self _ _)
      · rcases ih h2 with h3 | h3
        · exact Or.inl h3
        · exact Or.inr (List.mem_cons_of_mem _ h3)
    · rw [if_neg hc] at h
      rcases List.mem_cons.mp h with h2 | h2
      · exact Or.inl h2
      · exact Or.inr h2

theorem mem_foldl_insSorted {α : Type} (le : α → α → Bool) (l acc : List α) (a : α)
    (h : a ∈ l.foldl (fun acc x => insSorted le x acc) acc) : a ∈ acc ∨ a ∈ l := by
  induction l generalizing acc with
  | nil => exact Or.inl h
  | cons x xs ih =>
    rcases ih (insSorted le x acc) h with h2 | h2
    · rcases mem_insSorted le x a acc h2 with h3 | h3
      · exact Or.inr (by rw [h3]; exact List.mem_cons_self _ _)
      · exact Or.inl h3
    · exact Or.inr (List.mem_cons_of_mem _ h2)

theorem mem_stableSort {α : Type} (le : α → α → Bool) (l : List α) (a : α)
    (h : a ∈ stableSort le l) : a ∈ l := by
  simp only [stableSort] at h
  rcases mem_foldl_insSorted le l [] a h with h2 | h2
  · simp at h2
  · exact h2

/-- C10: during flag aggregation, every flag whose key starts with `lp_`
either is one of the five recognised liquidity-lock keys or is silently
discarded — any `lp_`-prefixed flag present in the aggregated output has
its key in `lpFlagPriority`. -/
theorem C10_nonpriority_lp_flags_discarded (mr : ModuleResults) (f : RiskFlag)
    (hmem : f ∈ collectAndDeduplicateFlags mr)
    (hlp : startsWithS f.key "lp_" = true) :
    f.key ∈ lpFlagPriority := by
  simp only [collectAndDeduplicateFlags] at hmem
  set S : DedupState := (moduleEntries mr).foldl (fun st p => p.2.flags.foldl dedupStep st)
    { flagMap := [], bestLpFlag := none, bestLpPriority := lpFlagPriority.length } with hS
  have hinv := foldl_modules_preserves (moduleEntries mr)
    { flagMap := [], bestLpFlag := none, bestLpPriority := lpFlagPriority.length }
    (by intro p hp; simp at hp) (by intro g hg; simp at hg)
  rw [← hS] at hinv
  have hmem2 := mem_stableSort flagLE _ f hmem
  rcases List.mem_map.mp hmem2 with ⟨p, hp, hf⟩
  cases hbest : S.bestLpFlag with
  | none =>
    rw [hbest] at hp
    have := hinv.1 p hp
    rw [hf] at this
    rw [this] at hlp
    exact absurd hlp (by simp)
  | some g =>
    rw [hbest] at hp
    rcases mapSet_mem _ _ _ _ hp with h3 | h3
    · have hkey : f = g := by rw [← hf, h3]
      rw [hkey]
      exact hinv.2 g hbest
    · have := hinv.1 p h3
      rw [hf] at this
      rw [this] at hlp
      exact absurd hlp (by simp)

/-- Witness for C10: a module emitting the legacy `lp_unlocked` flag — the
aggregated output contains its normalized form, whose key is one of the
five recognised liquidity-lock keys. -/
theorem C10_nonpriority_lp_flags_discarded_witness :
    normalizeFlag (RawFlag.legacy "lp_unlocked") ∈ collectAndDeduplicateFlags mrC10ex ∧
    (normalizeFlag (RawFlag.legacy "lp_unlocked")).key ∈ lpFlagPriority := by
  have hout : collectAndDeduplicateFlags mrC10ex =
      [normalizeFlag (RawFlag.legacy "lp_unlocked")] := by
    simp +decide [collectAndDeduplicateFlags, moduleEntries, mrC10ex, exModule, dedupStep,
      normalizeFlag, orHalf, formatFlagLabel, lookupS, mapSet, lpFlagPriority,
      startsWithS, listStarts, stableSort, insSorted, lpIndex, getCriticalFlags]
  have hmem : normalizeFlag (RawFlag.legacy "lp_unlocked") ∈ collectAndDeduplicateFlags mrC10ex := by
    rw [hout]
    exact List.mem_singleton.mpr rfl
  exact ⟨hmem, C10_nonpriority_lp_flags_discarded mrC10ex _ hmem (by decide)⟩
